import Mathlib

/-!
Formal model of the trajectory-following and vignetting-assessment engine of
the `ts_mtdometrajectory` repository.

The repository ships two revisions of the package:
* `python/lsst/ts/mtdometrajectory/` (current): `dome_trajectory.py` with the
  vignetting monitor, the follow controller and azimuth normalization;
* `python/lsst/ts/MTDomeTrajectory/` (historical): `simple_algorithm.py`,
  `base_algorithm.py` and an older `dome_trajectory.py`.

Angles are degrees, modelled as rationals; the one place the source applies a
cosine (the azimuth scaling of the simple algorithm and the azimuth vignetting
classifier) is modelled over the reals with `Real.cos`.
-/

/-- Shortest-path angular difference in degrees: `angle1 - angle2` wrapped into
the half-open interval `[-180, 180)`.  Models `lsst.ts.utils.angle_diff(angle1,
angle2).deg`, which wraps `angle1 - angle2` at 180 degrees (astropy
`wrap_at("180d")`). -/
def angle_diff (angle1 angle2 : ℚ) : ℚ :=
  (angle1 - angle2) - 360 * ⌊((angle1 - angle2) + 180) / 360⌋

/-- Wrap an angle in degrees into `[0, 360)`.  Models
`lsst.ts.utils.angle_wrap_nonnegative(angle).deg` (astropy `wrap_at("360d")`). -/
def angle_wrap_nonnegative (angle : ℚ) : ℚ :=
  angle - 360 * ⌊angle / 360⌋

/-- Degrees-to-radians factor `RAD_PER_DEG = math.pi / 180` from
`MTDomeTrajectory/simple_algorithm.py` line 31. -/
noncomputable def RAD_PER_DEG : ℝ := Real.pi / 180

/-- Modelled from the spec: the `PositionedTarget` value of section 3 (the
`lsst.ts.simactuators.path.PathSegment` objects the source builds always carry
zero acceleration and jerk, so extrapolation is linear): position (deg),
velocity (deg/s) and the TAI reference time (s). -/
structure PathSegment where
  position : ℚ
  velocity : ℚ
  tai : ℚ
  deriving DecidableEq

/-- Modelled from the spec: `PositionedTarget.at(t)` extrapolates
`position + velocity * (t - referenceTime)` (spec section 3); this is the
`.at(tai)` method of `lsst.ts.simactuators.path.PathSegment` for a segment with
zero acceleration and jerk. -/
def PathSegment.atTime (seg : PathSegment) (tai : ℚ) : PathSegment :=
  { position := seg.position + seg.velocity * (tai - seg.tai)
    velocity := seg.velocity
    tai := tai }

/-- Modelled from the spec: the `TelescopeTarget` pair of section 3 (the
`ElevationAzimuth` class; its source file `elevation_azimuth.py` is not
included under `src/`): one `PathSegment` per axis. -/
structure ElevationAzimuth where
  elevation : PathSegment
  azimuth : PathSegment
  deriving DecidableEq

/-- The two thresholds stored by `SimpleAlgorithm.configure`
(`MTDomeTrajectory/simple_algorithm.py` lines 143-144). -/
structure SimpleAlgorithmConfig where
  max_delta_azimuth : ℚ
  max_delta_elevation : ℚ
  deriving DecidableEq

/-- `SimpleAlgorithm.configure` (`MTDomeTrajectory/simple_algorithm.py` lines
123-144), reached from `BaseAlgorithm.__init__`.  The azimuth threshold is
validated first, then the elevation threshold; both attribute assignments come
after both checks, so on error no threshold is stored - hence the `Except`
result carries either an error message or the fully validated pair. -/
def simple_configure (max_delta_elevation max_delta_azimuth : ℚ) :
    Except String SimpleAlgorithmConfig :=
  if max_delta_azimuth < 0 then
    .error "max_delta_azimuth must not be negative"
  else if max_delta_elevation < 0 then
    .error "max_delta_elevation must not be negative"
  else
    .ok { max_delta_azimuth := max_delta_azimuth
          max_delta_elevation := max_delta_elevation }

/-- `SimpleAlgorithm.desired_dome_elevation`
(`MTDomeTrajectory/simple_algorithm.py` lines 45-83).  The
`next_telescope_target` argument is accepted and ignored, as in the source. -/
def desired_dome_elevation (cfg : SimpleAlgorithmConfig)
    (dome_target_elevation : Option PathSegment)
    (telescope_target : ElevationAzimuth)
    (next_telescope_target : Option ElevationAzimuth) : Option PathSegment :=
  match dome_target_elevation with
  | none => some telescope_target.elevation
  | some dte =>
    if |angle_diff (dte.atTime telescope_target.elevation.tai).position
          telescope_target.elevation.position| < cfg.max_delta_elevation then
      none
    else
      some { position := telescope_target.elevation.position
             velocity := 0
             tai := telescope_target.elevation.tai }

/-- `SimpleAlgorithm.desired_dome_azimuth`
(`MTDomeTrajectory/simple_algorithm.py` lines 85-121).  The angular difference
is multiplied by the cosine of the telescope target elevation (converted to
radians) and the absolute value is taken of the product; the
`next_telescope_target` argument is accepted and ignored, as in the source. -/
noncomputable def desired_dome_azimuth (cfg : SimpleAlgorithmConfig)
    (dome_target_azimuth : Option PathSegment)
    (telescope_target : ElevationAzimuth)
    (next_telescope_target : Option ElevationAzimuth) : Option PathSegment :=
  match dome_target_azimuth with
  | none => some telescope_target.azimuth
  | some dta =>
    if |((angle_diff telescope_target.azimuth.position
            ((dta.atTime telescope_target.azimuth.tai).position) : ℚ) : ℝ) *
          Real.cos ((telescope_target.elevation.position : ℚ) * RAD_PER_DEG)| <
        ((cfg.max_delta_azimuth : ℚ) : ℝ) then
      none
    else
      some { position := telescope_target.azimuth.position
             velocity := 0
             tai := telescope_target.azimuth.tai }

/-- The `TelescopeVignetted` enumeration from `lsst.ts.xml.enums.MTDomeTrajectory`
(spec section 3, `VignettingClassification`). -/
inductive TelescopeVignetted where
  | UNKNOWN
  | NO
  | PARTIALLY
  | FULLY
  deriving DecidableEq

/-- `MTDomeTrajectory.compute_vignetted_by_any`
(`mtdometrajectory/dome_trajectory.py` lines 161-181).  The `elevation`
argument is accepted but does not influence the result: in the source every
clause mentioning `elevation` is commented out (lines 165, 171, 177), so only
`azimuth` and `shutter` are combined. -/
def compute_vignetted_by_any
    (azimuth elevation shutter : TelescopeVignetted) : TelescopeVignetted :=
  if azimuth = .UNKNOWN ∨ shutter = .UNKNOWN then .UNKNOWN
  else if azimuth = .NO ∧ shutter = .NO then .NO
  else if azimuth = .FULLY ∨ shutter = .FULLY then .FULLY
  else .PARTIALLY

/-- `MTDomeTrajectory.compute_vignetted_by_elevation`
(`mtdometrajectory/dome_trajectory.py` lines 221-249).  `vignette_lo` stands
for `self.config.elevation_vignette_partial` and `vignette_hi` for
`self.config.elevation_vignette_full`; `enable_el_motion` is the configuration
flag enabling elevation following.  The source checks for missing telemetry
(`None`) before consulting `enable_el_motion`. -/
def compute_vignetted_by_elevation (vignette_lo vignette_hi : ℚ)
    (enable_el_motion : Bool)
    (dome_elevation telescope_elevation : Option ℚ) : TelescopeVignetted :=
  match dome_elevation, telescope_elevation with
  | some de, some te =>
    if enable_el_motion then
      if |angle_diff de te| < vignette_lo then .NO
      else if |angle_diff de te| < vignette_hi then .PARTIALLY
      else .FULLY
    else .NO
  | _, _ => .UNKNOWN

/-- `MTDomeTrajectory.compute_vignetted_by_shutter`
(`mtdometrajectory/dome_trajectory.py` lines 251-277).  `vignette_lo` stands
for `self.config.shutter_vignette_partial` and `vignette_hi` for
`self.config.shutter_vignette_full`; the argument is the open percentage of the
two shutter leaves, or `none` when the telemetry is unavailable.  Note both
comparisons in the first branch are inclusive (`>=` in the source). -/
def compute_vignetted_by_shutter (vignette_lo vignette_hi : ℚ)
    (shutters_percent_open : Option (ℚ × ℚ)) : TelescopeVignetted :=
  match shutters_percent_open with
  | none => .UNKNOWN
  | some sp =>
    if vignette_lo ≤ sp.1 ∧ vignette_lo ≤ sp.2 then .NO
    else if sp.1 ≤ vignette_hi ∧ sp.2 ≤ vignette_hi then .FULLY
    else .PARTIALLY

/-- The four fields of the `telescopeVignetted` event. -/
structure TelescopeVignettedEvent where
  vignetted : TelescopeVignetted
  azimuth : TelescopeVignetted
  elevation : TelescopeVignetted
  shutter : TelescopeVignetted
  deriving DecidableEq

/-- The final `evt_telescopeVignetted.set_write(vignetted=UNKNOWN,
azimuth=UNKNOWN, shutter=UNKNOWN)` performed by `close_tasks`
(`mtdometrajectory/dome_trajectory.py` lines 303-307), by the end of
`report_vignetted_loop` (lines 437-441) and by `handle_summary_state` (lines
386-390).  `set_write` updates exactly the named fields and retains the
previous value of every field not named in the call - the `elevation` field is
not named in any of these three calls. -/
def final_vignetted_write (prior : TelescopeVignettedEvent) :
    TelescopeVignettedEvent :=
  { prior with
    vignetted := .UNKNOWN
    azimuth := .UNKNOWN
    shutter := .UNKNOWN }

/-- The fields of the MTMount `target` event consumed by
`update_mtmount_target`. -/
structure MountTarget where
  elevation : ℚ
  elevationVelocity : ℚ
  azimuth : ℚ
  azimuthVelocity : ℚ
  taiTime : ℚ
  deriving DecidableEq

/-- The telescope target stored by `MTDomeTrajectory.update_mtmount_target`
(`mtdometrajectory/dome_trajectory.py` lines 443-462): the elevation segment is
taken verbatim from the event; the azimuth position is first passed through
`lsst.ts.utils.angle_wrap_nonnegative` so that it lies in `[0, 360)`.  The
stored value is the `self.telescope_target` that the subsequent
`follow_target()` call (and every later follow pass) reads. -/
def update_mtmount_target (target : MountTarget) : ElevationAzimuth :=
  { elevation :=
      { position := target.elevation
        velocity := target.elevationVelocity
        tai := target.taiTime }
    azimuth :=
      { position := angle_wrap_nonnegative target.azimuth
        velocity := target.azimuthVelocity
        tai := target.taiTime } }

/-- The type of `self.algorithm.desired_dome_elevation` and
`self.algorithm.desired_dome_azimuth` as called by the follow controller:
dome target, telescope target, next telescope target. -/
abbrev DomeAlgorithm :=
  Option PathSegment → ElevationAzimuth → Option ElevationAzimuth →
    Option PathSegment

/-- The controller state read by one call of `MTDomeTrajectory.follow_target`
(`mtdometrajectory/dome_trajectory.py` lines 465-497).  Each field models the
corresponding attribute or query:
`following_enabled` = `self.following_enabled`;
`start_task_done` = `self.start_task.done()`;
`telescope_target` / `next_telescope_target` = the stored targets;
`move_dome_elevation_task_done` / `move_dome_azimuth_task_done` =
`self.move_dome_*_task.done()` (false while a previous move is in flight);
`el_motion_has_data` / `az_motion_has_data` =
`self.dome_remote.evt_*Motion.has_data`;
`enable_el_motion` = the configuration flag;
`dome_target_elevation` / `dome_target_azimuth` = the values returned by
`self.get_dome_target_*()`. -/
structure FollowState where
  following_enabled : Bool
  start_task_done : Bool
  telescope_target : Option ElevationAzimuth
  next_telescope_target : Option ElevationAzimuth
  move_dome_elevation_task_done : Bool
  move_dome_azimuth_task_done : Bool
  el_motion_has_data : Bool
  az_motion_has_data : Bool
  enable_el_motion : Bool
  dome_target_elevation : Option PathSegment
  dome_target_azimuth : Option PathSegment

/-- The observable outcome of one `follow_target` call:
`follow_result` is the `(moved_elevation, moved_azimuth)` pair set on
`self.follow_task` when the pass runs to the end, `none` when one of the three
early returns fires; `elevation_command` / `azimuth_command` is the desired
target handed to a newly created `move_dome_elevation` /
`move_dome_azimuth` task (which issues the single hardware move command for
that axis), `none` when no task is created for the axis this pass. -/
structure FollowOutcome where
  follow_result : Option (Bool × Bool)
  elevation_command : Option PathSegment
  azimuth_command : Option PathSegment
  deriving DecidableEq

/-- `MTDomeTrajectory.get_moved_elevation`
(`mtdometrajectory/dome_trajectory.py` lines 499-518): query the algorithm; on
a non-`None` result with finite position, create the move task and report the
axis as moved.  Positions are rationals here, so the `math.isfinite` test of
the source always succeeds. -/
def get_moved_elevation (alg : DomeAlgorithm) (s : FollowState)
    (tt : ElevationAzimuth) : Bool × Option PathSegment :=
  match alg s.dome_target_elevation tt s.next_telescope_target with
  | some seg => (true, some seg)
  | none => (false, none)

/-- `MTDomeTrajectory.get_moved_azimuth`
(`mtdometrajectory/dome_trajectory.py` lines 520-541): query the algorithm; on
a non-`None` result with finite position and velocity, create the move task
and report the axis as moved.  Positions and velocities are rationals here, so
the `math.isfinite` tests of the source always succeed. -/
def get_moved_azimuth (alg : DomeAlgorithm) (s : FollowState)
    (tt : ElevationAzimuth) : Bool × Option PathSegment :=
  match alg s.dome_target_azimuth tt s.next_telescope_target with
  | some seg => (true, some seg)
  | none => (false, none)

/-- `MTDomeTrajectory.follow_target` (`mtdometrajectory/dome_trajectory.py`
lines 465-497).  Early returns when following is disabled, startup is not
complete, or no telescope target is known.  Otherwise each axis is considered
only if its previous move task is done and its motion event has data (and, for
elevation, elevation motion is enabled); an axis whose guard fails is left
unmoved.  The pass always ends by publishing `(moved_elevation,
moved_azimuth)` on the follow task. -/
def follow_target (alg_el alg_az : DomeAlgorithm) (s : FollowState) :
    FollowOutcome :=
  if ¬s.following_enabled then
    { follow_result := none, elevation_command := none, azimuth_command := none }
  else if ¬s.start_task_done then
    { follow_result := none, elevation_command := none, azimuth_command := none }
  else
    match s.telescope_target with
    | none =>
      { follow_result := none, elevation_command := none, azimuth_command := none }
    | some tt =>
      let el :=
        if s.move_dome_elevation_task_done ∧ s.el_motion_has_data ∧
            s.enable_el_motion then
          get_moved_elevation alg_el s tt
        else (false, none)
      let az :=
        if s.move_dome_azimuth_task_done ∧ s.az_motion_has_data then
          get_moved_azimuth alg_az s tt
        else (false, none)
      { follow_result := some (el.1, az.1)
        elevation_command := el.2
        azimuth_command := az.2 }

/-- The shutter classification as the spec sentence literally reads, written
from the words of the spec for comparison with `compute_vignetted_by_shutter`:
NO when both leaves are strictly *above* the first threshold, FULLY when both
are at or below the second, else PARTIALLY, UNKNOWN when telemetry is
unavailable. -/
def spec_vignetted_by_shutter (vignette_lo vignette_hi : ℚ)
    (shutters_percent_open : Option (ℚ × ℚ)) : TelescopeVignetted :=
  match shutters_percent_open with
  | none => .UNKNOWN
  | some sp =>
    if vignette_lo < sp.1 ∧ vignette_lo < sp.2 then .NO
    else if sp.1 ≤ vignette_hi ∧ sp.2 ≤ vignette_hi then .FULLY
    else .PARTIALLY

/-- A follow-controller state in which following is active, a telescope target
is known, both motion events have data, but the previous move task of each
axis is still in flight (`done()` is false). -/
def follow_state_busy_example : FollowState :=
  { following_enabled := true
    start_task_done := true
    telescope_target := some ⟨⟨40, 0, 0⟩, ⟨0, 0, 0⟩⟩
    next_telescope_target := none
    move_dome_elevation_task_done := false
    move_dome_azimuth_task_done := false
    el_motion_has_data := true
    az_motion_has_data := true
    enable_el_motion := true
    dome_target_elevation := none
    dome_target_azimuth := none }

/-! ### Helper lemmas about the angle utilities -/

/-- When the raw difference already lies in `[-180, 180)`, `angle_diff`
returns it unchanged. -/
theorem angle_diff_eq_of_small (a b : ℚ) (h1 : -180 ≤ a - b) (h2 : a - b < 180) :
    angle_diff a b = a - b := by
  unfold angle_diff
  have hfloor : ⌊((a - b) + 180) / 360⌋ = 0 := by
    rw [Int.floor_eq_zero_iff, Set.mem_Ico]
    constructor
    · apply div_nonneg _ (by norm_num)
      linarith
    · rw [div_lt_one (by norm_num : (0:ℚ) < 360)]
      linarith
  rw [hfloor]
  push_cast
  ring

/-- `angle_wrap_nonnegative` always lands in `[0, 360)`. -/
theorem angle_wrap_nonnegative_mem (x : ℚ) :
    0 ≤ angle_wrap_nonnegative x ∧ angle_wrap_nonnegative x < 360 := by
  have hkey : angle_wrap_nonnegative x = 360 * Int.fract (x / 360) := by
    unfold angle_wrap_nonnegative Int.fract
    ring
  have h0 : (0:ℚ) ≤ Int.fract (x / 360) := Int.fract_nonneg _
  have h1 : Int.fract (x / 360) < 1 := Int.fract_lt_one _
  constructor
  · rw [hkey]
    positivity
  · rw [hkey]
    nlinarith

/-! ### C1: combined vignetting classification -/

/-- C1 counterexample: with azimuth NO, elevation UNKNOWN and shutter NO the
combined classification computed by `compute_vignetted_by_any` is NO, not
UNKNOWN, although one of the three factors is UNKNOWN. -/
theorem compute_vignetted_by_any_unknown_elevation_cex :
    compute_vignetted_by_any .NO .UNKNOWN .NO = .NO ∧
      compute_vignetted_by_any .NO .UNKNOWN .NO ≠ .UNKNOWN := by
  constructor
  · rfl
  · decide

/-- C1 (amended): the combined classification ignores the elevation factor
entirely; over the remaining two factors it is UNKNOWN if azimuth or shutter
is UNKNOWN, else FULLY if azimuth or shutter is FULLY, else NO if both are NO,
else PARTIALLY. -/
theorem compute_vignetted_by_any_ignores_elevation
    (azimuth elevation shutter : TelescopeVignetted) :
    compute_vignetted_by_any azimuth elevation shutter =
      (if azimuth = .UNKNOWN ∨ shutter = .UNKNOWN then .UNKNOWN
       else if azimuth = .FULLY ∨ shutter = .FULLY then .FULLY
       else if azimuth = .NO ∧ shutter = .NO then .NO
       else .PARTIALLY) := by
  cases azimuth <;> cases shutter <;> rfl

/-! ### C9: final telescopeVignetted publish on shutdown -/

/-- C9 counterexample: starting from a state in which every field reads NO,
the final shutdown write leaves the `elevation` field at NO rather than
resetting it to UNKNOWN. -/
theorem final_vignetted_write_elevation_cex :
    final_vignetted_write ⟨.NO, .NO, .NO, .NO⟩ =
        ⟨.UNKNOWN, .UNKNOWN, .NO, .UNKNOWN⟩ ∧
      (final_vignetted_write ⟨.NO, .NO, .NO, .NO⟩).elevation ≠ .UNKNOWN := by
  constructor
  · rfl
  · decide

/-- C9 (amended): the final telescopeVignetted write performed on monitor
shutdown sets the combined, azimuth and shutter fields to UNKNOWN but leaves
the elevation field at whatever value it previously had. -/
theorem final_vignetted_write_spec (prior : TelescopeVignettedEvent) :
    (final_vignetted_write prior).vignetted = .UNKNOWN ∧
    (final_vignetted_write prior).azimuth = .UNKNOWN ∧
    (final_vignetted_write prior).shutter = .UNKNOWN ∧
    (final_vignetted_write prior).elevation = prior.elevation :=
  ⟨rfl, rfl, rfl, rfl⟩

/-! ### C10: azimuth normalization of the stored telescope target -/

/-- C10: the telescope target stored by `update_mtmount_target` (and read by
every follow pass) has its azimuth position wrapped into `[0, 360)`. -/
theorem update_mtmount_target_azimuth_normalized (target : MountTarget) :
    0 ≤ (update_mtmount_target target).azimuth.position ∧
      (update_mtmount_target target).azimuth.position < 360 := by
  have h := angle_wrap_nonnegative_mem target.azimuth
  exact ⟨h.1, h.2⟩

/-! ### C5: bootstrap when no dome elevation target is known -/

/-- C5 counterexample: with no dome elevation target and a telescope elevation
target of position 30, velocity 1, time 0, `desired_dome_elevation` returns
the telescope segment with velocity 1, not the zero-velocity segment the claim
describes. -/
theorem desired_dome_elevation_bootstrap_velocity_cex :
    desired_dome_elevation ⟨5, 5⟩ none
        ⟨⟨30, 1, 0⟩, ⟨0, 0, 0⟩⟩ none = some ⟨30, 1, 0⟩ ∧
      desired_dome_elevation ⟨5, 5⟩ none
        ⟨⟨30, 1, 0⟩, ⟨0, 0, 0⟩⟩ none ≠ some ⟨30, 0, 0⟩ := by
  constructor
  · rfl
  · decide

/-- C5 (amended): when the dome elevation target is unknown,
`desired_dome_elevation` returns the telescope target elevation segment
unchanged - same position, same (possibly nonzero) velocity and same
timestamp. -/
theorem desired_dome_elevation_bootstrap (cfg : SimpleAlgorithmConfig)
    (telescope_target : ElevationAzimuth)
    (next_telescope_target : Option ElevationAzimuth) :
    desired_dome_elevation cfg none telescope_target next_telescope_target =
      some telescope_target.elevation := rfl

/-! ### C6: configuration validation of the simple algorithm -/

/-- C6: constructing the simple algorithm fails whenever either threshold is
negative, in which case no threshold is stored, and succeeds with both
thresholds stored when both are non-negative. -/
theorem simple_configure_spec (max_delta_elevation max_delta_azimuth : ℚ) :
    ((max_delta_azimuth < 0 ∨ max_delta_elevation < 0) →
      ∃ msg, simple_configure max_delta_elevation max_delta_azimuth =
        .error msg) ∧
    (0 ≤ max_delta_azimuth → 0 ≤ max_delta_elevation →
      simple_configure max_delta_elevation max_delta_azimuth =
        .ok ⟨max_delta_azimuth, max_delta_elevation⟩) := by
  constructor
  · intro h
    unfold simple_configure
    split_ifs with h1 h2
    · exact ⟨_, rfl⟩
    · exact ⟨_, rfl⟩
    · rcases h with h | h
      · exact absurd h h1
      · exact absurd h h2
  · intro ha he
    unfold simple_configure
    split_ifs with h1 h2
    · exact absurd h1 (not_lt.mpr ha)
    · exact absurd h2 (not_lt.mpr he)
    · rfl

/-- C6 witness: at `max_delta_azimuth = -1` construction fails, and at
`(0, 0)` it succeeds storing both thresholds. -/
theorem simple_configure_spec_witness :
    (∃ msg, simple_configure 0 (-1) = .error msg) ∧
      simple_configure 2 3 = .ok ⟨3, 2⟩ :=
  ⟨(simple_configure_spec 0 (-1)).1 (Or.inl (by norm_num)),
   (simple_configure_spec 2 3).2 (by norm_num) (by norm_num)⟩

/-! ### C7: shutter vignetting classification -/

/-- C7 counterexample: with both leaves exactly at the first ("partial")
threshold, the source returns NO (its comparison is inclusive, `>=`), while
the claim as stated ("above the partial threshold") yields PARTIALLY. -/
theorem compute_vignetted_by_shutter_boundary_cex :
    compute_vignetted_by_shutter 95 5 (some (95, 95)) = .NO ∧
      spec_vignetted_by_shutter 95 5 (some (95, 95)) = .PARTIALLY := by
  decide

/-- C7 (amended): `compute_vignetted_by_shutter` returns NO when both leaves
are at or above the first threshold (inclusive comparison), FULLY when that
fails and both leaves are at or below the second threshold, PARTIALLY
otherwise, and UNKNOWN when the shutter telemetry is unavailable. -/
theorem compute_vignetted_by_shutter_spec (vignette_lo vignette_hi p0 p1 : ℚ) :
    (vignette_lo ≤ p0 → vignette_lo ≤ p1 →
      compute_vignetted_by_shutter vignette_lo vignette_hi (some (p0, p1)) =
        .NO) ∧
    (¬(vignette_lo ≤ p0 ∧ vignette_lo ≤ p1) →
      p0 ≤ vignette_hi → p1 ≤ vignette_hi →
      compute_vignetted_by_shutter vignette_lo vignette_hi (some (p0, p1)) =
        .FULLY) ∧
    (¬(vignette_lo ≤ p0 ∧ vignette_lo ≤ p1) →
      ¬(p0 ≤ vignette_hi ∧ p1 ≤ vignette_hi) →
      compute_vignetted_by_shutter vignette_lo vignette_hi (some (p0, p1)) =
        .PARTIALLY) ∧
    compute_vignetted_by_shutter vignette_lo vignette_hi none = .UNKNOWN := by
  refine ⟨?_, ?_, ?_, rfl⟩ <;>
    intros <;>
    simp only [compute_vignetted_by_shutter] <;>
    split_ifs <;>
    first | rfl | tauto

/-- C7 witness: with thresholds 50 (first) and 10 (second), leaves (60, 55)
classify NO, (5, 8) classify FULLY and (30, 30) classify PARTIALLY. -/
theorem compute_vignetted_by_shutter_spec_witness :
    compute_vignetted_by_shutter 50 10 (some (60, 55)) = .NO ∧
      compute_vignetted_by_shutter 50 10 (some (5, 8)) = .FULLY ∧
      compute_vignetted_by_shutter 50 10 (some (30, 30)) = .PARTIALLY :=
  ⟨(compute_vignetted_by_shutter_spec 50 10 60 55).1 (by norm_num)
      (by norm_num),
   (compute_vignetted_by_shutter_spec 50 10 5 8).2.1 (by norm_num)
      (by norm_num) (by norm_num),
   (compute_vignetted_by_shutter_spec 50 10 30 30).2.2.1 (by norm_num)
      (by norm_num)⟩

/-! ### C8: elevation vignetting classification -/

/-- C8 counterexample: with elevation following disabled and the dome
elevation telemetry unavailable, the source returns UNKNOWN (the telemetry
check precedes the enable check), while the claim says NO unconditionally. -/
theorem compute_vignetted_by_elevation_disabled_cex :
    compute_vignetted_by_elevation 5 10 false none (some 30) = .UNKNOWN ∧
      compute_vignetted_by_elevation 5 10 false none (some 30) ≠ .NO := by
  decide

/-- C8 (amended): `compute_vignetted_by_elevation` returns UNKNOWN whenever
either position input is unavailable, regardless of the elevation-following
flag; when both positions are available it returns NO if following is
disabled, and otherwise applies the unscaled threshold logic in sequence: NO
when the absolute difference is below the first threshold, PARTIALLY when it
is below the second, FULLY otherwise. -/
theorem compute_vignetted_by_elevation_spec
    (vignette_lo vignette_hi de te : ℚ) :
    (∀ (b : Bool) (x : Option ℚ),
      compute_vignetted_by_elevation vignette_lo vignette_hi b none x =
        .UNKNOWN) ∧
    (∀ (b : Bool) (x : Option ℚ),
      compute_vignetted_by_elevation vignette_lo vignette_hi b x none =
        .UNKNOWN) ∧
    compute_vignetted_by_elevation vignette_lo vignette_hi false
      (some de) (some te) = .NO ∧
    (|angle_diff de te| < vignette_lo →
      compute_vignetted_by_elevation vignette_lo vignette_hi true
        (some de) (some te) = .NO) ∧
    (vignette_lo ≤ |angle_diff de te| → |angle_diff de te| < vignette_hi →
      compute_vignetted_by_elevation vignette_lo vignette_hi true
        (some de) (some te) = .PARTIALLY) ∧
    (vignette_lo ≤ |angle_diff de te| → vignette_hi ≤ |angle_diff de te| →
      compute_vignetted_by_elevation vignette_lo vignette_hi true
        (some de) (some te) = .FULLY) := by
  refine ⟨fun b x => rfl, fun b x => ?_, rfl, ?_, ?_, ?_⟩
  · cases x <;> rfl
  all_goals
    intros <;>
    simp only [compute_vignetted_by_elevation] <;>
    split_ifs <;>
    first | rfl | tauto | (exfalso; linarith)

/-- C8 witness: with thresholds 5 and 10, positions (30, 31) classify NO,
(30, 37) classify PARTIALLY and (0, 20) classify FULLY when following is
enabled. -/
theorem compute_vignetted_by_elevation_spec_witness :
    compute_vignetted_by_elevation 5 10 true (some 30) (some 31) = .NO ∧
      compute_vignetted_by_elevation 5 10 true (some 30) (some 37) =
        .PARTIALLY ∧
      compute_vignetted_by_elevation 5 10 true (some 0) (some 20) = .FULLY := by
  have d1 : angle_diff 30 31 = -1 := by
    rw [angle_diff_eq_of_small 30 31 (by norm_num) (by norm_num)]
    norm_num
  have d2 : angle_diff 30 37 = -7 := by
    rw [angle_diff_eq_of_small 30 37 (by norm_num) (by norm_num)]
    norm_num
  have d3 : angle_diff 0 20 = -20 := by
    rw [angle_diff_eq_of_small 0 20 (by norm_num) (by norm_num)]
    norm_num
  refine ⟨(compute_vignetted_by_elevation_spec 5 10 30 31).2.2.2.1 ?_,
    (compute_vignetted_by_elevation_spec 5 10 30 37).2.2.2.2.1 ?_ ?_,
    (compute_vignetted_by_elevation_spec 5 10 0 20).2.2.2.2.2 ?_ ?_⟩
  · rw [d1]; norm_num
  · rw [d2]; norm_num
  · rw [d2]; norm_num
  · rw [d3]; norm_num
  · rw [d3]; norm_num

/-! ### C3: elevation threshold behaviour of the simple algorithm -/

/-- C3: with a known dome elevation target, `desired_dome_elevation` returns
`none` exactly when the absolute unscaled angular difference between the dome
target extrapolated to the telescope timestamp and the telescope elevation
position is strictly below the threshold, and otherwise a zero-velocity
segment at the telescope elevation position and timestamp. -/
theorem desired_dome_elevation_threshold_spec (cfg : SimpleAlgorithmConfig)
    (dte : PathSegment) (telescope_target : ElevationAzimuth)
    (next_telescope_target : Option ElevationAzimuth) :
    (|angle_diff (dte.atTime telescope_target.elevation.tai).position
        telescope_target.elevation.position| < cfg.max_delta_elevation →
      desired_dome_elevation cfg (some dte) telescope_target
        next_telescope_target = none) ∧
    (cfg.max_delta_elevation ≤
        |angle_diff (dte.atTime telescope_target.elevation.tai).position
          telescope_target.elevation.position| →
      desired_dome_elevation cfg (some dte) telescope_target
        next_telescope_target =
        some { position := telescope_target.elevation.position
               velocity := 0
               tai := telescope_target.elevation.tai }) := by
  constructor <;>
    intro h <;>
    simp only [desired_dome_elevation] <;>
    split_ifs <;>
    first | rfl | (exfalso; linarith)

/-- C3 witness: with threshold 5, dome target at 0 and telescope elevation 1
no move is commanded; with telescope elevation 10 a zero-velocity slew to 10
is commanded. -/
theorem desired_dome_elevation_threshold_spec_witness :
    desired_dome_elevation ⟨5, 5⟩ (some ⟨0, 0, 0⟩)
        ⟨⟨1, 0, 0⟩, ⟨0, 0, 0⟩⟩ none = none ∧
      desired_dome_elevation ⟨5, 5⟩ (some ⟨0, 0, 0⟩)
        ⟨⟨10, 0, 0⟩, ⟨0, 0, 0⟩⟩ none = some ⟨10, 0, 0⟩ :=
  ⟨(desired_dome_elevation_threshold_spec ⟨5, 5⟩ ⟨0, 0, 0⟩
      ⟨⟨1, 0, 0⟩, ⟨0, 0, 0⟩⟩ none).1
      (by norm_num [angle_diff, PathSegment.atTime]),
   (desired_dome_elevation_threshold_spec ⟨5, 5⟩ ⟨0, 0, 0⟩
      ⟨⟨10, 0, 0⟩, ⟨0, 0, 0⟩⟩ none).2
      (by norm_num [angle_diff, PathSegment.atTime])⟩

/-! ### C2: azimuth threshold behaviour of the simple algorithm -/

/-- C2 counterexample: at telescope elevation 120 degrees the cosine factor is
negative, so the quantity of the claim (absolute difference first, cosine
after) is `20 * cos(120 deg) = -10 < 5`, making the claim demand `None`, yet
the source compares `|difference * cos|` and commands a move. -/
theorem desired_dome_azimuth_negative_cos_cex :
    desired_dome_azimuth ⟨5, 5⟩ (some ⟨0, 0, 0⟩)
        ⟨⟨120, 0, 0⟩, ⟨20, 0, 0⟩⟩ none = some ⟨20, 0, 0⟩ ∧
      ((|angle_diff 20 (((⟨0, 0, 0⟩ : PathSegment).atTime 0).position)| :
            ℚ) : ℝ) *
          Real.cos (((120 : ℚ) : ℝ) * RAD_PER_DEG) < 5 := by
  have h120 : ((120 : ℚ) : ℝ) * RAD_PER_DEG = Real.pi - Real.pi / 3 := by
    simp only [RAD_PER_DEG]
    push_cast
    ring
  have hcos : Real.cos (((120 : ℚ) : ℝ) * RAD_PER_DEG) = -(1 / 2) := by
    rw [h120, Real.cos_pi_sub, Real.cos_pi_div_three]
  constructor
  · simp only [desired_dome_azimuth]
    rw [if_neg]
    rw [hcos]
    norm_num [angle_diff, PathSegment.atTime]
  · rw [hcos]
    norm_num [angle_diff, PathSegment.atTime]

/-- C2 (amended): with a known dome azimuth target, `desired_dome_azimuth`
returns a zero-velocity segment at the telescope azimuth position and
timestamp when the absolute value of the cosine-scaled difference
`|angleDiff * cos(elevation)|` is at least the threshold, and `none` when it
is strictly below the threshold. -/
theorem desired_dome_azimuth_threshold_spec (cfg : SimpleAlgorithmConfig)
    (dta : PathSegment) (telescope_target : ElevationAzimuth)
    (next_telescope_target : Option ElevationAzimuth) :
    (((cfg.max_delta_azimuth : ℚ) : ℝ) ≤
        |((angle_diff telescope_target.azimuth.position
            ((dta.atTime telescope_target.azimuth.tai).position) : ℚ) : ℝ) *
          Real.cos ((telescope_target.elevation.position : ℚ) *
            RAD_PER_DEG)| →
      desired_dome_azimuth cfg (some dta) telescope_target
        next_telescope_target =
        some { position := telescope_target.azimuth.position
               velocity := 0
               tai := telescope_target.azimuth.tai }) ∧
    (|((angle_diff telescope_target.azimuth.position
          ((dta.atTime telescope_target.azimuth.tai).position) : ℚ) : ℝ) *
        Real.cos ((telescope_target.elevation.position : ℚ) *
          RAD_PER_DEG)| < ((cfg.max_delta_azimuth : ℚ) : ℝ) →
      desired_dome_azimuth cfg (some dta) telescope_target
        next_telescope_target = none) := by
  constructor <;>
    intro h <;>
    simp only [desired_dome_azimuth] <;>
    split_ifs <;>
    first | rfl | (exfalso; linarith)

/-- C2 witness: with threshold 5, dome azimuth target 0, telescope azimuth 10
and telescope elevation 0 (cosine 1), the scaled difference 10 is at least 5
and a zero-velocity slew to azimuth 10 is commanded; with telescope azimuth 1
the scaled difference 1 is below 5 and no move is commanded. -/
theorem desired_dome_azimuth_threshold_spec_witness :
    desired_dome_azimuth ⟨5, 5⟩ (some ⟨0, 0, 0⟩)
        ⟨⟨0, 0, 0⟩, ⟨10, 0, 0⟩⟩ none = some ⟨10, 0, 0⟩ ∧
      desired_dome_azimuth ⟨5, 5⟩ (some ⟨0, 0, 0⟩)
        ⟨⟨0, 0, 0⟩, ⟨1, 0, 0⟩⟩ none = none :=
  ⟨(desired_dome_azimuth_threshold_spec ⟨5, 5⟩ ⟨0, 0, 0⟩
      ⟨⟨0, 0, 0⟩, ⟨10, 0, 0⟩⟩ none).1
      (by norm_num [angle_diff, PathSegment.atTime]),
   (desired_dome_azimuth_threshold_spec ⟨5, 5⟩ ⟨0, 0, 0⟩
      ⟨⟨0, 0, 0⟩, ⟨1, 0, 0⟩⟩ none).2
      (by norm_num [angle_diff, PathSegment.atTime])⟩

/-! ### C4: a busy axis is skipped without error -/

/-- C4: during a follow pass that runs (following enabled, startup complete,
telescope target known), an axis whose previous move task has not completed
gets no new move task and no hardware command, and the published pass outcome
reports that axis as not moved; the pass itself still completes and publishes
normally, for any algorithm. -/
theorem follow_target_skips_busy_axis (alg_el alg_az : DomeAlgorithm)
    (s : FollowState) (tt : ElevationAzimuth)
    (h1 : s.following_enabled = true) (h2 : s.start_task_done = true)
    (h3 : s.telescope_target = some tt) :
    (s.move_dome_azimuth_task_done = false →
      (follow_target alg_el alg_az s).azimuth_command = none ∧
      ∃ moved_elevation, (follow_target alg_el alg_az s).follow_result =
        some (moved_elevation, false)) ∧
    (s.move_dome_elevation_task_done = false →
      (follow_target alg_el alg_az s).elevation_command = none ∧
      ∃ moved_azimuth, (follow_target alg_el alg_az s).follow_result =
        some (false, moved_azimuth)) := by
  constructor
  · intro haz
    simp [follow_target, h1, h2, h3, haz]
  · intro hel
    simp [follow_target, h1, h2, h3, hel]

/-- C4 witness: in a concrete state where following is active and both axes
have unfinished move tasks, the pass publishes `(false, false)` and creates no
move task for either axis. -/
theorem follow_target_skips_busy_axis_witness :
    (((follow_target (fun _ _ _ => none) (fun _ _ _ => none)
        follow_state_busy_example).azimuth_command = none ∧
      ∃ moved_elevation,
        (follow_target (fun _ _ _ => none) (fun _ _ _ => none)
          follow_state_busy_example).follow_result =
          some (moved_elevation, false)) ∧
    ((follow_target (fun _ _ _ => none) (fun _ _ _ => none)
        follow_state_busy_example).elevation_command = none ∧
      ∃ moved_azimuth,
        (follow_target (fun _ _ _ => none) (fun _ _ _ => none)
          follow_state_busy_example).follow_result =
          some (false, moved_azimuth))) := by
  have h := follow_target_skips_busy_axis (fun _ _ _ => none)
    (fun _ _ _ => none) follow_state_busy_example ⟨⟨40, 0, 0⟩, ⟨0, 0, 0⟩⟩
    rfl rfl rfl
  exact ⟨h.1 rfl, h.2 rfl⟩
